import Mathlib

/-
Verification of the `kubernetes-test-functions` Go module
(`src/kubernetes-test-functions/main.go`).

Embedding conventions:
* `t.Logf` writes a success record and `t.Errorf` a failure record to the
  testing sink; an invocation's observable behaviour is the ordered list of
  records it wrote.
* `panic(...)` aborts the whole test process; it is modelled as the
  `Except.error` case of a check's result, carrying the panic message, and by
  construction no records accompany it.
* The Kubernetes API client (`clientset`) is an external collaborator: each
  Go call such as `clientset.AppsV1().Deployments(namespace).List(...)`
  returns `(object, err)`, modelled by passing the call's result in as an
  `Except String object` argument (`.error e` is a non-nil `err`).
* `v1meta.Now()` is modelled by passing the sampled instant in as an integer
  argument `now`; creation timestamps are integers, and `a.Before(&b)` is
  the strict comparison `a < b`.
* Go format verbs `%v` are modelled by string concatenation; `%v` on an
  `int`/`int32` prints its decimal representation, i.e. `toString` on `Int`.
* Go `map[string]string` is modelled as an association list; indexing
  `m[k]` yields the stored value or the zero value `""` when `k` is absent.
-/

namespace kubernetes_test_functions

/-- A record written to the Go `testing.T` sink: `t.Logf` produces a
`success` record, `t.Errorf` a `failure` record. -/
inductive Report where
  | success (msg : String)
  | failure (msg : String)
deriving Repr, DecidableEq

/-- The message carried by a report record. -/
def reportMsg : Report → String
  | .success m => m
  | .failure m => m

/-- Observable outcome of one check-function invocation: `Except.error m`
models a Go `panic(m)` (process abort, nothing reported), `Except.ok rs`
models normal return having written the records `rs` to the sink. -/
abbrev CheckResult := Except String (List Report)

/-- The field of `k8s.io/api/apps/v1.Deployment` read by this module. -/
structure Deployment where
  name : String
deriving Repr, DecidableEq

/-- The field of `v1.DeploymentList` read by this module (`Items`). -/
structure DeploymentList where
  items : List Deployment
deriving Repr, DecidableEq

/-- The fields of `v1.DeploymentCondition` read by this module (`Type`,
`Status`; both are string-typed in the Kubernetes API). -/
structure DeploymentCondition where
  type : String
  status : String
deriving Repr, DecidableEq

/-- The field of `v1core.Namespace` read by this module
(`Status.Phase`, a string-typed enumeration). -/
structure NamespaceObject where
  phase : String
deriving Repr, DecidableEq

/-- The field of `v1core.ServiceAccount` read (`CreationTimestamp`). -/
structure ServiceAccount where
  creationTimestamp : Int
deriving Repr, DecidableEq

/-- The field of `rbac/v1.Role` read (`CreationTimestamp`). -/
structure Role where
  creationTimestamp : Int
deriving Repr, DecidableEq

/-- The field of `rbac/v1.RoleBinding` read (`CreationTimestamp`). -/
structure RoleBinding where
  creationTimestamp : Int
deriving Repr, DecidableEq

/-- The field of `rbac/v1.ClusterRole` read (`CreationTimestamp`). -/
structure ClusterRole where
  creationTimestamp : Int
deriving Repr, DecidableEq

/-- The field of `rbac/v1.ClusterRoleBinding` read (`CreationTimestamp`). -/
structure ClusterRoleBinding where
  creationTimestamp : Int
deriving Repr, DecidableEq

/-- Go map indexing `m[k]` for a `map[string]string`: the stored value, or
the zero value `""` when the key is absent. -/
def mapIndex (m : List (String × String)) (k : String) : String :=
  match m.find? (fun p => p.1 == k) with
  | some p => p.2
  | none => ""

/-- Go `ExpectedDeploymentCount` (main.go lines 19-42).  `listResult` is the
result of `clientset.AppsV1().Deployments(ns).List(...)`. -/
def ExpectedDeploymentCount (listResult : Except String DeploymentList)
    (ns : String) (expectedCount : Int) : CheckResult :=
  match listResult with
  | .error e => .error e
  | .ok deployments =>
    let actualCount : Int := deployments.items.length
    if actualCount = expectedCount then
      .ok [Report.success ("The expected number of Deployments exist in the \x27" ++ ns ++
        "\x27 namespace.  Expected " ++ toString expectedCount ++ ", got " ++
        toString actualCount ++ ".")]
    else
      .ok [Report.failure ("An unexpected number of Deployments exist in the \x27" ++ ns ++
        "\x27 namespace.  Expected " ++ toString expectedCount ++ ", got " ++
        toString actualCount ++ ".")]

/-- Go `DeploymentExists` (main.go lines 44-57).  `getResult` is the result
of `clientset.AppsV1().Deployments(ns).Get(name, ...)`; `ns` is used only
for that call. -/
def DeploymentExists (getResult : Except String Deployment)
    (name : String) (ns : String) : CheckResult :=
  match getResult with
  | .error e => .error e
  | .ok deployment =>
    let actualName := deployment.name
    if actualName = name then
      .ok [Report.success ("Jenkins Deployment exists with the expected name.  Expected " ++
        name ++ ", got " ++ actualName ++ ".")]
    else
      .ok [Report.failure ("Jenkins Deployment does not exist with the expected name.  Expected " ++
        name ++ ", got " ++ actualName ++ ".")]

/-
Model of the `regexp` standard-library collaborator used by
`AnnotationsMatchPattern`: `regexp.Compile` either returns a compiled
pattern or a non-nil error (which the caller turns into a panic), and
`Regexp.MatchString` is an unanchored search for a matching substring.
The model covers the RE2 fragment relevant to this module's callers:
literal characters, `.` (any character except newline), alternation `|`,
grouping `(...)`, the repetition operators `*` `+` `?` (with an optional
non-greedy `?` marker, which does not change the matched language),
character classes `[...]` / `[^...]` with ranges, and backslash escapes of
punctuation.  Compilation errors mirror RE2: an unmatched `(` or `)`, a
repetition operator with no operand, a directly nested repetition
operator, a trailing backslash, and an unterminated character class.
-/

/-- Abstract syntax of a compiled regular expression. -/
inductive Regex where
  | void
  | eps
  | char (c : Char)
  | any
  | cls (neg : Bool) (ranges : List (Char × Char))
  | alt (r1 r2 : Regex)
  | cat (r1 r2 : Regex)
  | star (r : Regex)
deriving Repr, DecidableEq

/-- Whether the empty string is in the language of `r`. -/
def nullable : Regex → Bool
  | .void => false
  | .eps => true
  | .char _ => false
  | .any => false
  | .cls _ _ => false
  | .alt r1 r2 => nullable r1 || nullable r2
  | .cat r1 r2 => nullable r1 && nullable r2
  | .star _ => true

/-- Whether `c` lies in one of the ranges of a character class. -/
def inRanges (ranges : List (Char × Char)) (c : Char) : Bool :=
  ranges.any (fun p => decide (p.1.toNat ≤ c.toNat) && decide (c.toNat ≤ p.2.toNat))

/-- Brzozowski derivative of `r` with respect to the character `c`. -/
def deriv : Regex → Char → Regex
  | .void, _ => .void
  | .eps, _ => .void
  | .char a, c => if a = c then .eps else .void
  | .any, c => if c = '\n' then .void else .eps
  | .cls neg ranges, c => if inRanges ranges c != neg then .eps else .void
  | .alt r1 r2, c => .alt (deriv r1 c) (deriv r2 c)
  | .cat r1 r2, c =>
    if nullable r1 then .alt (.cat (deriv r1 c) r2) (deriv r2 c)
    else .cat (deriv r1 c) r2
  | .star r, c => .cat (deriv r c) (.star r)

/-- Whether some prefix of `l` is in the language of `r`. -/
def matchHere (r : Regex) (l : List Char) : Bool :=
  match l with
  | [] => nullable r
  | c :: rest => nullable r || matchHere (deriv r c) rest

/-- Whether some substring of `l` is in the language of `r`. -/
def reMatch (r : Regex) (l : List Char) : Bool :=
  matchHere r l ||
    match l with
    | [] => false
    | _ :: rest => reMatch r rest

/-- Go `Regexp.MatchString`: unanchored search over the whole string. -/
def MatchString (r : Regex) (s : String) : Bool := reMatch r s.data

/-- Parse the items of a character class up to the closing `]`:
single characters and `a-z` style ranges. -/
def parseClsItems : List Char → Except String (List (Char × Char) × List Char)
  | [] => .error "missing closing ]"
  | ']' :: rest => .ok ([], rest)
  | c :: '-' :: d :: rest =>
    if d = ']' then
      .ok ([(c, c), ('-', '-')], rest)
    else
      match parseClsItems rest with
      | .error e => .error e
      | .ok (items, rest2) => .ok ((c, d) :: items, rest2)
  | c :: rest =>
    match parseClsItems rest with
    | .error e => .error e
    | .ok (items, rest2) => .ok ((c, c) :: items, rest2)

/-- Parse a character class body (after the opening `[`), with an optional
leading negation marker `^`. -/
def parseCls (cs : List Char) : Except String (Regex × List Char) :=
  match cs with
  | '^' :: rest =>
    match parseClsItems rest with
    | .error e => .error e
    | .ok (items, rest2) => .ok (Regex.cls true items, rest2)
  | _ =>
    match parseClsItems cs with
    | .error e => .error e
    | .ok (items, rest2) => .ok (Regex.cls false items, rest2)

/-- After one repetition operator: an optional non-greedy `?` marker is
accepted (it leaves the matched language unchanged); a further repetition
operator directly after is the RE2 nested-repetition error. -/
def parseGreedyMark (r : Regex) (cs : List Char) : Except String (Regex × List Char) :=
  match cs with
  | '?' :: '*' :: _ => .error "invalid nested repetition operator"
  | '?' :: '+' :: _ => .error "invalid nested repetition operator"
  | '?' :: '?' :: _ => .error "invalid nested repetition operator"
  | '?' :: rest => .ok (r, rest)
  | '*' :: _ => .error "invalid nested repetition operator"
  | '+' :: _ => .error "invalid nested repetition operator"
  | _ => .ok (r, cs)

/-- Apply at most one postfix repetition operator to a parsed atom. -/
def parseReps (r : Regex) (cs : List Char) : Except String (Regex × List Char) :=
  match cs with
  | '*' :: rest => parseGreedyMark (Regex.star r) rest
  | '+' :: rest => parseGreedyMark (Regex.cat r (Regex.star r)) rest
  | '?' :: rest => parseGreedyMark (Regex.alt r Regex.eps) rest
  | _ => .ok (r, cs)

mutual

/-- Parse an alternation: `sequence ('|' sequence)*`.  `fuel` bounds the
recursion depth; `regexpCompile` supplies enough for any input. -/
def parseAlternate (fuel : Nat) (cs : List Char) : Except String (Regex × List Char) :=
  match fuel with
  | 0 => .error "fuel exhausted"
  | fuel' + 1 =>
    match parseSequence fuel' cs with
    | .error e => .error e
    | .ok (r, rest) =>
      match rest with
      | '|' :: rest2 =>
        match parseAlternate fuel' rest2 with
        | .error e => .error e
        | .ok (r2, rest3) => .ok (Regex.alt r r2, rest3)
      | _ => .ok (r, rest)

/-- Parse a concatenation of repeated atoms, stopping at `|`, `)` or the
end of the input.  The empty concatenation is `eps`. -/
def parseSequence (fuel : Nat) (cs : List Char) : Except String (Regex × List Char) :=
  match fuel with
  | 0 => .error "fuel exhausted"
  | fuel' + 1 =>
    match cs with
    | [] => .ok (Regex.eps, [])
    | c :: _ =>
      if c = '|' ∨ c = ')' then .ok (Regex.eps, cs)
      else if c = '*' ∨ c = '+' ∨ c = '?' then
        .error "missing argument to repetition operator"
      else
        match parseAtom fuel' cs with
        | .error e => .error e
        | .ok (r1, rest) =>
          match parseReps r1 rest with
          | .error e => .error e
          | .ok (r2, rest2) =>
            match parseSequence fuel' rest2 with
            | .error e => .error e
            | .ok (r3, rest3) => .ok (Regex.cat r2 r3, rest3)

/-- Parse a single atom: a group, `.`, a character class, an escape, or a
literal character. -/
def parseAtom (fuel : Nat) (cs : List Char) : Except String (Regex × List Char) :=
  match fuel with
  | 0 => .error "fuel exhausted"
  | fuel' + 1 =>
    match cs with
    | [] => .error "missing operand"
    | '(' :: rest =>
      match parseAlternate fuel' rest with
      | .error e => .error e
      | .ok (r, rest2) =>
        match rest2 with
        | ')' :: rest3 => .ok (r, rest3)
        | _ => .error "missing closing )"
    | '.' :: rest => .ok (Regex.any, rest)
    | '[' :: rest => parseCls rest
    | '\\' :: rest =>
      match rest with
      | [] => .error "trailing backslash at end of expression"
      | c :: rest2 => .ok (Regex.char c, rest2)
    | c :: rest => .ok (Regex.char c, rest)

end

/-- Model of Go `regexp.Compile`: parse the whole pattern; leftover input
after a complete alternation can only start with an unbalanced `)`.  Each
parser level consumes at most three units of fuel per input character, so
the supplied fuel is never exhausted. -/
def regexpCompile (pat : String) : Except String Regex :=
  match parseAlternate (pat.length * 4 + 8) pat.data with
  | .error e => .error e
  | .ok (r, []) => .ok r
  | .ok (_, _) => .error "unexpected )"

/-- Go `AnnotationsEqual` (main.go lines 61-79). -/
def AnnotationsEqual (annotations : List (String × String))
    (name : String) (expectedValue : String) : CheckResult :=
  let value := mapIndex annotations name
  if expectedValue = value then
    .ok [Report.success ("Annotation " ++ name ++ " exists with its expected value.  Expected " ++
      expectedValue ++ ", got " ++ value ++ ".")]
  else
    .ok [Report.failure ("Annotation " ++ name ++ " does not exist with its expected value.  Expected " ++
      expectedValue ++ ", got " ++ value ++ ".")]

/-- Go `AnnotationsMatchPattern` (main.go lines 83-106).  A compilation
error is a panic (`.error`); otherwise success is reported exactly when the
compiled pattern matches the looked-up value. -/
def AnnotationsMatchPattern (annotations : List (String × String))
    (name : String) (expectedPattern : String) : CheckResult :=
  let value := mapIndex annotations name
  match regexpCompile expectedPattern with
  | .error e => .error e
  | .ok pat =>
    if MatchString pat value then
      .ok [Report.success ("Annotation " ++ name ++
        " exists and matches its expected pattern.  Expected " ++ expectedPattern ++
        ", got " ++ value ++ ".")]
    else
      .ok [Report.failure ("Annotation " ++ name ++
        " does not exist and match its expected pattern.  Expected " ++ expectedPattern ++
        ", got " ++ value ++ ".")]

/-- Go `ConditionStatusMet` (main.go lines 109-136).  The loop over
`conditions` appending every entry whose `Type` equals `conditionType` is
`List.filter`; `matches[0]` on an empty slice is a Go runtime panic,
modelled as the `.error` case. -/
def ConditionStatusMet (conditions : List DeploymentCondition)
    (conditionType : String) (expectedStatus : String) : CheckResult :=
  let matchList := conditions.filter (fun condition => condition.type == conditionType)
  match matchList with
  | [] => .error "runtime error: index out of range [0] with length 0"
  | first :: _ =>
    let status := first.status
    if status = expectedStatus then
      .ok [Report.success ("Deployment condition type " ++ conditionType ++
        " has its expected status.  Expected " ++ expectedStatus ++ ", got " ++ status ++ ".")]
    else
      .ok [Report.failure ("Deployment condition type " ++ conditionType ++
        " does not have its expected status.  Expected " ++ expectedStatus ++ ", got " ++ status ++ ".")]

/-- Go `ReplicaCountAsExpected` (main.go lines 138-154). -/
def ReplicaCountAsExpected (expectedReplicas : Int) (actualReplicas : Int)
    (description : String) : CheckResult :=
  if expectedReplicas = actualReplicas then
    .ok [Report.success ("Jenkins Deployment has expected " ++ description ++ ".  Expected " ++
      toString expectedReplicas ++ ", got " ++ toString actualReplicas ++ ".")]
  else
    .ok [Report.failure ("Jenkins Deployment has unexpected " ++ description ++ ".  Expected " ++
      toString expectedReplicas ++ ", got " ++ toString actualReplicas ++ ".")]

/-- Go `NamespaceExists` (main.go lines 157-170).  `getResult` is the result
of `clientset.CoreV1().Namespaces().Get(name, ...)`. -/
def NamespaceExists (getResult : Except String NamespaceObject)
    (name : String) : CheckResult :=
  match getResult with
  | .error e => .error e
  | .ok nsObject =>
    let status := "Active"
    if nsObject.phase = status then
      .ok [Report.success ("Cluster has a namespace named " ++ name ++ ".")]
    else
      .ok [Report.failure ("Cluster does not have a namespace named " ++ name ++ ".")]

/-- Go `ServiceAccountExists` (main.go lines 173-186).  `now` is the instant
sampled by `v1meta.Now()` during the check. -/
def ServiceAccountExists (getResult : Except String ServiceAccount)
    (name : String) (ns : String) (now : Int) : CheckResult :=
  match getResult with
  | .error e => .error e
  | .ok serviceAccount =>
    if serviceAccount.creationTimestamp < now then
      .ok [Report.success ("A ServiceAccount named \x27" ++ name ++ "\x27 exists in the \x27" ++
        ns ++ "\x27 namespace.")]
    else
      .ok [Report.failure ("A ServiceAccount named \x27" ++ name ++ "\x27 does not exist in the \x27" ++
        ns ++ "\x27 namespace.")]

/-- Go `RoleExists` (main.go lines 189-202). -/
def RoleExists (getResult : Except String Role)
    (name : String) (ns : String) (now : Int) : CheckResult :=
  match getResult with
  | .error e => .error e
  | .ok role =>
    if role.creationTimestamp < now then
      .ok [Report.success ("A Role named \x27" ++ name ++ "\x27 exists in the \x27" ++
        ns ++ "\x27 namespace.")]
    else
      .ok [Report.failure ("A Role named \x27" ++ name ++ "\x27 does not exist in the \x27" ++
        ns ++ "\x27 namespace.")]

/-- Go `RoleBindingExists` (main.go lines 205-218). -/
def RoleBindingExists (getResult : Except String RoleBinding)
    (name : String) (ns : String) (now : Int) : CheckResult :=
  match getResult with
  | .error e => .error e
  | .ok role =>
    if role.creationTimestamp < now then
      .ok [Report.success ("A RoleBinding object named \x27" ++ name ++ "\x27 exists in the \x27" ++
        ns ++ "\x27 namespace.")]
    else
      .ok [Report.failure ("A RoleBinding object named \x27" ++ name ++ "\x27 does not exist in the \x27" ++
        ns ++ "\x27 namespace.")]

/-- Go `ClusterRoleExists` (main.go lines 221-234). -/
def ClusterRoleExists (getResult : Except String ClusterRole)
    (name : String) (now : Int) : CheckResult :=
  match getResult with
  | .error e => .error e
  | .ok role =>
    if role.creationTimestamp < now then
      .ok [Report.success ("A ClusterRole named \x27" ++ name ++ "\x27 exists.")]
    else
      .ok [Report.failure ("A ClusterRole named \x27" ++ name ++ "\x27 does not exist.")]

/-- Go `ClusterRoleBindingExists` (main.go lines 237-250). -/
def ClusterRoleBindingExists (getResult : Except String ClusterRoleBinding)
    (name : String) (now : Int) : CheckResult :=
  match getResult with
  | .error e => .error e
  | .ok role =>
    if role.creationTimestamp < now then
      .ok [Report.success ("A ClusterRoleBinding object named \x27" ++ name ++ "\x27 exists.")]
    else
      .ok [Report.failure ("A ClusterRoleBinding object named \x27" ++ name ++ "\x27 does not exist.")]

/-- Whether `sub` is a character-wise prefix of `l`. -/
def subAt (sub l : List Char) : Bool :=
  match sub, l with
  | [], _ => true
  | _ :: _, [] => false
  | x :: xs, y :: ys => x == y && subAt xs ys

/-- Whether `sub` occurs as a contiguous run inside `l`. -/
def strContainsAux (sub l : List Char) : Bool :=
  subAt sub l ||
    match l with
    | [] => false
    | _ :: rest => strContainsAux sub rest

/-- Whether the string `sub` occurs verbatim inside `s`. -/
def strContains (s sub : String) : Bool := strContainsAux sub.data s.data

/-- A check result writes exactly one record — a single success or a single
failure — whenever it returns normally. -/
def oneReportOnOk (res : CheckResult) : Prop :=
  ∀ rs, res = Except.ok rs → ∃ m, rs = [Report.success m] ∨ rs = [Report.failure m]

deriving instance DecidableEq for Except

/- Helper lemmas. -/

theorem subAt_self (sub tail : List Char) : subAt sub (sub ++ tail) = true := by
  induction sub with
  | nil => rfl
  | cons x xs ih => simp [subAt, ih]

theorem strContainsAux_self (sub : List Char) : strContainsAux sub sub = true := by
  have h := subAt_self sub []
  rw [List.append_nil] at h
  cases sub with
  | nil => rfl
  | cons c cs => simp [strContainsAux, h]

theorem strContainsAux_suffix (sub pre : List Char) :
    strContainsAux sub (pre ++ sub) = true := by
  induction pre with
  | nil => rw [List.nil_append]; exact strContainsAux_self sub
  | cons x xs ih => simp [strContainsAux, ih]

theorem strContains_append (x core : String) : strContains (x ++ core) core = true := by
  unfold strContains
  rw [String.data_append]
  exact strContainsAux_suffix core.data x.data

theorem strContainsAux_of_subAt (sub l : List Char) (h : subAt sub l = true) :
    strContainsAux sub l = true := by
  cases l <;> simp [strContainsAux, h]

theorem strContainsAux_append_left (sub l pre : List Char)
    (h : strContainsAux sub l = true) : strContainsAux sub (pre ++ l) = true := by
  induction pre with
  | nil => simpa using h
  | cons x xs ih => simp [strContainsAux, ih]

theorem strContains_front (msg b c : String) (h : msg = b ++ c) :
    strContains msg b = true := by
  subst h
  unfold strContains
  rw [String.data_append]
  exact strContainsAux_of_subAt _ _ (subAt_self _ _)

theorem strContains_of_split (msg a b c : String) (h : msg = a ++ (b ++ c)) :
    strContains msg b = true := by
  subst h
  unfold strContains
  rw [String.data_append, String.data_append]
  exact strContainsAux_append_left _ _ _ (strContainsAux_of_subAt _ _ (subAt_self _ _))

theorem contains_expected_got (y p e a : String) (hy : y = p ++ "Expected ") :
    strContains (y ++ e ++ ", got " ++ a ++ ".")
      ("Expected " ++ e ++ ", got " ++ a ++ ".") = true := by
  subst hy
  have hnorm : (p ++ "Expected ") ++ e ++ ", got " ++ a ++ "." =
      p ++ ("Expected " ++ e ++ ", got " ++ a ++ ".") := by
    simp [String.append_assoc]
  rw [hnorm]
  exact strContains_append p ("Expected " ++ e ++ ", got " ++ a ++ ".")

theorem matchHere_eps (l : List Char) : matchHere Regex.eps l = true := by
  cases l <;> simp [matchHere, nullable]

theorem reMatch_eps (l : List Char) : reMatch Regex.eps l = true := by
  cases l <;> simp [reMatch, matchHere_eps]

/-- C1: every check function that fetches via the API client (deployment
count, deployment existence, namespace, service account, role, role
binding, cluster role, cluster role binding), given a failed fetch, aborts
the whole test process with that error (panic) and emits no record to the
sink in that invocation: its result is the report-free `.error` outcome. -/
theorem fetch_failure_aborts_without_reporting
    (e ns name : String) (expectedCount now : Int) :
    ExpectedDeploymentCount (.error e) ns expectedCount = .error e ∧
    DeploymentExists (.error e) name ns = .error e ∧
    NamespaceExists (.error e) name = .error e ∧
    ServiceAccountExists (.error e) name ns now = .error e ∧
    RoleExists (.error e) name ns now = .error e ∧
    RoleBindingExists (.error e) name ns now = .error e ∧
    ClusterRoleExists (.error e) name now = .error e ∧
    ClusterRoleBindingExists (.error e) name now = .error e :=
  ⟨rfl, rfl, rfl, rfl, rfl, rfl, rfl, rfl⟩

/-- C3: for a conditions list with exactly one entry of the requested type,
the condition status check reports success exactly when that entry's status
equals the expected status (a single failure record otherwise); for a list
with no entry of the requested type, the check aborts the process with a
fatal index error instead of reporting. -/
theorem condition_status_exactly_one_and_none
    (conditions : List DeploymentCondition) (ct st : String) :
    (∀ c, conditions.filter (fun condition => condition.type == ct) = [c] →
      ((c.status = st →
        ∃ m, ConditionStatusMet conditions ct st = Except.ok [Report.success m]) ∧
       (c.status ≠ st →
        ∃ m, ConditionStatusMet conditions ct st = Except.ok [Report.failure m]))) ∧
    (conditions.filter (fun condition => condition.type == ct) = [] →
      ∃ e, ConditionStatusMet conditions ct st = Except.error e) := by
  constructor
  · intro c hc
    constructor
    · intro hs
      simp [ConditionStatusMet, hc, hs]
    · intro hs
      simp [ConditionStatusMet, hc, hs]
  · intro hc
    simp [ConditionStatusMet, hc]

/-- Witness for C3 at concrete inputs. -/
theorem condition_status_exactly_one_and_none_witness :
    (∃ m, ConditionStatusMet [⟨"Available", "True"⟩] "Available" "True" =
      Except.ok [Report.success m]) ∧
    (∃ e, ConditionStatusMet [⟨"Progressing", "True"⟩] "Available" "True" =
      Except.error e) :=
  ⟨((condition_status_exactly_one_and_none [⟨"Available", "True"⟩] "Available" "True").1
      ⟨"Available", "True"⟩ (by decide)).1 (by decide),
   (condition_status_exactly_one_and_none [⟨"Progressing", "True"⟩] "Available" "True").2
      (by decide)⟩

/-- C8: for a successfully fetched namespace object, the namespace
existence check reports success exactly when the status phase equals
`"Active"`; a phase of `"Terminating"` yields a failure record. -/
theorem namespace_exists_reports_active (name phase : String) :
    ((∃ m, NamespaceExists (Except.ok ⟨phase⟩) name = Except.ok [Report.success m]) ↔
      phase = "Active") ∧
    NamespaceExists (Except.ok ⟨"Terminating"⟩) name =
      Except.ok [Report.failure ("Cluster does not have a namespace named " ++ name ++ ".")] := by
  constructor
  · constructor
    · rintro ⟨m, h⟩
      by_cases hp : phase = "Active"
      · exact hp
      · simp only [NamespaceExists, if_neg hp] at h
        exact absurd (List.head_eq_of_cons_eq (Except.ok.inj h).symm) (by simp)
    · intro hp
      simp [NamespaceExists, hp]
  · simp [NamespaceExists]

/-- Witness for C8 at a concrete input. -/
theorem namespace_exists_reports_active_witness :
    ∃ m, NamespaceExists (Except.ok ⟨"Active"⟩) "jenkins" = Except.ok [Report.success m] :=
  (namespace_exists_reports_active "jenkins" "Active").1.mpr rfl

/-- C9: each of the service account, role, role binding, cluster role and
cluster role binding existence checks, on a successfully fetched object,
reports success exactly when the object's creation timestamp is strictly
before the sampled current time, and reports failure otherwise. -/
theorem rbac_existence_checks_timestamp_strictly_before_now
    (ts now : Int) (name ns : String) :
    ((ts < now → ∃ m, ServiceAccountExists (Except.ok ⟨ts⟩) name ns now =
        Except.ok [Report.success m]) ∧
     (¬ ts < now → ∃ m, ServiceAccountExists (Except.ok ⟨ts⟩) name ns now =
        Except.ok [Report.failure m])) ∧
    ((ts < now → ∃ m, RoleExists (Except.ok ⟨ts⟩) name ns now =
        Except.ok [Report.success m]) ∧
     (¬ ts < now → ∃ m, RoleExists (Except.ok ⟨ts⟩) name ns now =
        Except.ok [Report.failure m])) ∧
    ((ts < now → ∃ m, RoleBindingExists (Except.ok ⟨ts⟩) name ns now =
        Except.ok [Report.success m]) ∧
     (¬ ts < now → ∃ m, RoleBindingExists (Except.ok ⟨ts⟩) name ns now =
        Except.ok [Report.failure m])) ∧
    ((ts < now → ∃ m, ClusterRoleExists (Except.ok ⟨ts⟩) name now =
        Except.ok [Report.success m]) ∧
     (¬ ts < now → ∃ m, ClusterRoleExists (Except.ok ⟨ts⟩) name now =
        Except.ok [Report.failure m])) ∧
    ((ts < now → ∃ m, ClusterRoleBindingExists (Except.ok ⟨ts⟩) name now =
        Except.ok [Report.success m]) ∧
     (¬ ts < now → ∃ m, ClusterRoleBindingExists (Except.ok ⟨ts⟩) name now =
        Except.ok [Report.failure m])) := by
  refine ⟨⟨?_, ?_⟩, ⟨?_, ?_⟩, ⟨?_, ?_⟩, ⟨?_, ?_⟩, ⟨?_, ?_⟩⟩ <;> intro h
  · simp [ServiceAccountExists, h]
  · simp [ServiceAccountExists, h]
  · simp [RoleExists, h]
  · simp [RoleExists, h]
  · simp [RoleBindingExists, h]
  · simp [RoleBindingExists, h]
  · simp [ClusterRoleExists, h]
  · simp [ClusterRoleExists, h]
  · simp [ClusterRoleBindingExists, h]
  · simp [ClusterRoleBindingExists, h]

/-- Witness for C9 at concrete inputs (created at instant 0, now 1, and the
reverse for the failure side). -/
theorem rbac_existence_checks_timestamp_strictly_before_now_witness :
    (∃ m, ServiceAccountExists (Except.ok ⟨0⟩) "jenkins" "jenkins" 1 =
      Except.ok [Report.success m]) ∧
    (∃ m, ClusterRoleExists (Except.ok ⟨1⟩) "jenkins" 0 =
      Except.ok [Report.failure m]) :=
  ⟨(rbac_existence_checks_timestamp_strictly_before_now 0 1 "jenkins" "jenkins").1.1
      (by decide),
   (rbac_existence_checks_timestamp_strictly_before_now 1 0 "jenkins" "jenkins").2.2.2.1.2
      (by decide)⟩

/-- C10: the empty pattern compiles without error, and since matching is an
unanchored substring search, the pattern check invoked with pattern `""`
reports success for every annotations map and key, present or absent. -/
theorem empty_pattern_always_reports_success :
    regexpCompile "" = Except.ok Regex.eps ∧
    ∀ (annotations : List (String × String)) (name : String),
      ∃ m, AnnotationsMatchPattern annotations name "" = Except.ok [Report.success m] := by
  refine ⟨rfl, ?_⟩
  intro annotations name
  simp only [AnnotationsMatchPattern]
  rw [show regexpCompile "" = Except.ok Regex.eps from rfl]
  simp [MatchString, reMatch_eps]

/-- C2 counterexample: the condition status check invoked on an empty
conditions list aborts the process with a fatal index error and emits no
record to the sink at all, so it is not the case that every invocation of
every check function emits exactly one outcome record. -/
theorem condition_status_empty_invocation_emits_no_record :
    ConditionStatusMet [] "Available" "True" =
      Except.error "runtime error: index out of range [0] with length 0" ∧
    ¬ ∃ rs, ConditionStatusMet [] "Available" "True" = Except.ok rs := by
  refine ⟨rfl, ?_⟩
  rintro ⟨rs, h⟩
  rw [show ConditionStatusMet [] "Available" "True" =
    Except.error "runtime error: index out of range [0] with length 0" from rfl] at h
  exact Except.noConfusion h

/-- C2 (amended): every invocation of every check function that returns
normally — that is, does not abort the test process — emits exactly one
outcome record, a single success report or a single failure report, never
zero and never both. -/
theorem every_returning_invocation_reports_exactly_once
    (listResult : Except String DeploymentList) (getD : Except String Deployment)
    (getN : Except String NamespaceObject) (getSA : Except String ServiceAccount)
    (getR : Except String Role) (getRB : Except String RoleBinding)
    (getCR : Except String ClusterRole) (getCRB : Except String ClusterRoleBinding)
    (annotations : List (String × String)) (conditions : List DeploymentCondition)
    (ns name key val patt desc ct st : String) (n x y now : Int) :
    oneReportOnOk (ExpectedDeploymentCount listResult ns n) ∧
    oneReportOnOk (DeploymentExists getD name ns) ∧
    oneReportOnOk (AnnotationsEqual annotations key val) ∧
    oneReportOnOk (AnnotationsMatchPattern annotations key patt) ∧
    oneReportOnOk (ConditionStatusMet conditions ct st) ∧
    oneReportOnOk (ReplicaCountAsExpected x y desc) ∧
    oneReportOnOk (NamespaceExists getN name) ∧
    oneReportOnOk (ServiceAccountExists getSA name ns now) ∧
    oneReportOnOk (RoleExists getR name ns now) ∧
    oneReportOnOk (RoleBindingExists getRB name ns now) ∧
    oneReportOnOk (ClusterRoleExists getCR name now) ∧
    oneReportOnOk (ClusterRoleBindingExists getCRB name now) := by
  refine ⟨?_, ?_, ?_, ?_, ?_, ?_, ?_, ?_, ?_, ?_, ?_, ?_⟩ <;> intro rs h
  · match listResult with
    | .error e => exact absurd h (by simp [ExpectedDeploymentCount])
    | .ok d =>
      simp only [ExpectedDeploymentCount] at h
      split at h
      · exact ⟨_, Or.inl (Except.ok.inj h).symm⟩
      · exact ⟨_, Or.inr (Except.ok.inj h).symm⟩
  · match getD with
    | .error e => exact absurd h (by simp [DeploymentExists])
    | .ok d =>
      simp only [DeploymentExists] at h
      split at h
      · exact ⟨_, Or.inl (Except.ok.inj h).symm⟩
      · exact ⟨_, Or.inr (Except.ok.inj h).symm⟩
  · simp only [AnnotationsEqual] at h
    split at h
    · exact ⟨_, Or.inl (Except.ok.inj h).symm⟩
    · exact ⟨_, Or.inr (Except.ok.inj h).symm⟩
  · simp only [AnnotationsMatchPattern] at h
    split at h
    · exact Except.noConfusion h
    · split at h
      · exact ⟨_, Or.inl (Except.ok.inj h).symm⟩
      · exact ⟨_, Or.inr (Except.ok.inj h).symm⟩
  · simp only [ConditionStatusMet] at h
    split at h
    · exact Except.noConfusion h
    · split at h
      · exact ⟨_, Or.inl (Except.ok.inj h).symm⟩
      · exact ⟨_, Or.inr (Except.ok.inj h).symm⟩
  · simp only [ReplicaCountAsExpected] at h
    split at h
    · exact ⟨_, Or.inl (Except.ok.inj h).symm⟩
    · exact ⟨_, Or.inr (Except.ok.inj h).symm⟩
  · match getN with
    | .error e => exact absurd h (by simp [NamespaceExists])
    | .ok o =>
      simp only [NamespaceExists] at h
      split at h
      · exact ⟨_, Or.inl (Except.ok.inj h).symm⟩
      · exact ⟨_, Or.inr (Except.ok.inj h).symm⟩
  · match getSA with
    | .error e => exact absurd h (by simp [ServiceAccountExists])
    | .ok o =>
      simp only [ServiceAccountExists] at h
      split at h
      · exact ⟨_, Or.inl (Except.ok.inj h).symm⟩
      · exact ⟨_, Or.inr (Except.ok.inj h).symm⟩
  · match getR with
    | .error e => exact absurd h (by simp [RoleExists])
    | .ok o =>
      simp only [RoleExists] at h
      split at h
      · exact ⟨_, Or.inl (Except.ok.inj h).symm⟩
      · exact ⟨_, Or.inr (Except.ok.inj h).symm⟩
  · match getRB with
    | .error e => exact absurd h (by simp [RoleBindingExists])
    | .ok o =>
      simp only [RoleBindingExists] at h
      split at h
      · exact ⟨_, Or.inl (Except.ok.inj h).symm⟩
      · exact ⟨_, Or.inr (Except.ok.inj h).symm⟩
  · match getCR with
    | .error e => exact absurd h (by simp [ClusterRoleExists])
    | .ok o =>
      simp only [ClusterRoleExists] at h
      split at h
      · exact ⟨_, Or.inl (Except.ok.inj h).symm⟩
      · exact ⟨_, Or.inr (Except.ok.inj h).symm⟩
  · match getCRB with
    | .error e => exact absurd h (by simp [ClusterRoleBindingExists])
    | .ok o =>
      simp only [ClusterRoleBindingExists] at h
      split at h
      · exact ⟨_, Or.inl (Except.ok.inj h).symm⟩
      · exact ⟨_, Or.inr (Except.ok.inj h).symm⟩

/-- Witness for the amended C2 at a concrete invocation. -/
theorem every_returning_invocation_reports_exactly_once_witness :
    ∃ m, ([Report.success "Jenkins Deployment has expected replicas.  Expected 1, got 1."] =
        [Report.success m]) ∨
      ([Report.success "Jenkins Deployment has expected replicas.  Expected 1, got 1."] =
        [Report.failure m]) :=
  (every_returning_invocation_reports_exactly_once
      (Except.ok ⟨[]⟩) (Except.ok ⟨""⟩) (Except.ok ⟨""⟩) (Except.ok ⟨0⟩)
      (Except.ok ⟨0⟩) (Except.ok ⟨0⟩) (Except.ok ⟨0⟩) (Except.ok ⟨0⟩)
      [] [] "" "" "" "" "" "replicas" "" "" 0 1 1 0).2.2.2.2.2.1
    [Report.success "Jenkins Deployment has expected replicas.  Expected 1, got 1."]
    (by decide)

/-- C4: when the supplied pattern compiles, the annotation pattern check
reports success exactly when the compiled pattern matches the looked-up
value (the empty string when the key is absent), and a single failure
record otherwise; when the pattern does not compile, the check aborts the
process with the compilation error instead of reporting any outcome. -/
theorem pattern_check_match_iff_and_invalid_aborts
    (annotations : List (String × String)) (name patt : String) :
    (∀ r, regexpCompile patt = Except.ok r →
      ((MatchString r (mapIndex annotations name) = true →
        ∃ m, AnnotationsMatchPattern annotations name patt = Except.ok [Report.success m]) ∧
       (MatchString r (mapIndex annotations name) = false →
        ∃ m, AnnotationsMatchPattern annotations name patt = Except.ok [Report.failure m]))) ∧
    (∀ e, regexpCompile patt = Except.error e →
      AnnotationsMatchPattern annotations name patt = Except.error e) := by
  constructor
  · intro r hr
    constructor
    · intro hm
      simp [AnnotationsMatchPattern, hr, hm]
    · intro hm
      simp [AnnotationsMatchPattern, hr, hm]
  · intro e he
    simp [AnnotationsMatchPattern, he]

/-- Witness for C4: a valid pattern that matches, and an invalid pattern
that aborts. -/
theorem pattern_check_match_iff_and_invalid_aborts_witness :
    (∃ m, AnnotationsMatchPattern [("k", "abc")] "k" "a" =
      Except.ok [Report.success m]) ∧
    AnnotationsMatchPattern [("k", "abc")] "k" "(" =
      Except.error "missing closing )" :=
  ⟨((pattern_check_match_iff_and_invalid_aborts [("k", "abc")] "k" "a").1
      (Regex.cat (Regex.char 'a') Regex.eps) rfl).1 rfl,
   (pattern_check_match_iff_and_invalid_aborts [("k", "abc")] "k" "(").2
      "missing closing )" rfl⟩

/-- C5: the annotation equality check never aborts; with the key present
with value V it reports success exactly when the expected value equals V,
and otherwise a single failure whose message carries both values; with the
key absent it behaves exactly as if the stored value were the empty
string. -/
theorem annotations_equal_contract
    (annotations : List (String × String)) (name expectedValue : String) :
    (∃ rs, AnnotationsEqual annotations name expectedValue = Except.ok rs) ∧
    (∀ p, annotations.find? (fun q => q.1 == name) = some p →
      ((expectedValue = p.2 → AnnotationsEqual annotations name expectedValue =
          Except.ok [Report.success ("Annotation " ++ name ++
            " exists with its expected value.  Expected " ++ expectedValue ++
            ", got " ++ p.2 ++ ".")]) ∧
       (expectedValue ≠ p.2 → AnnotationsEqual annotations name expectedValue =
          Except.ok [Report.failure ("Annotation " ++ name ++
            " does not exist with its expected value.  Expected " ++ expectedValue ++
            ", got " ++ p.2 ++ ".")]))) ∧
    (annotations.find? (fun q => q.1 == name) = none →
      AnnotationsEqual annotations name expectedValue =
        AnnotationsEqual [(name, "")] name expectedValue) := by
  refine ⟨?_, ?_, ?_⟩
  · by_cases h : expectedValue = mapIndex annotations name <;>
      simp [AnnotationsEqual, h]
  · intro p hp
    have hv : mapIndex annotations name = p.2 := by simp [mapIndex, hp]
    constructor
    · intro h
      simp only [AnnotationsEqual, hv]
      rw [if_pos h]
    · intro h
      simp only [AnnotationsEqual, hv]
      rw [if_neg h]
  · intro hn
    have hv : mapIndex annotations name = "" := by simp [mapIndex, hn]
    have hv2 : mapIndex [(name, "")] name = "" := by simp [mapIndex]
    simp only [AnnotationsEqual, hv, hv2]

/-- Witness for C5: key present with the expected value. -/
theorem annotations_equal_contract_witness :
    AnnotationsEqual [("k", "v")] "k" "v" =
      Except.ok [Report.success ("Annotation " ++ "k" ++
        " exists with its expected value.  Expected " ++ "v" ++ ", got " ++ "v" ++ ".")] :=
  ((annotations_equal_contract [("k", "v")] "k" "v").2.1 ("k", "v") (by decide)).1 rfl

/-- C6: the deployment count check (actual value: number of listed
deployments) and the replica count check report success exactly when the
expected and actual values are equal and failure otherwise, and in both
branches the reported message contains "Expected e, got a" with both
values verbatim. -/
theorem count_and_replica_success_iff_and_message_verbatim
    (items : List Deployment) (ns desc : String) (ec x y : Int) :
    (ec = (items.length : Int) →
      ∃ m, ExpectedDeploymentCount (Except.ok ⟨items⟩) ns ec =
          Except.ok [Report.success m] ∧
        strContains m ("Expected " ++ toString ec ++ ", got " ++
          toString (items.length : Int) ++ ".") = true) ∧
    (ec ≠ (items.length : Int) →
      ∃ m, ExpectedDeploymentCount (Except.ok ⟨items⟩) ns ec =
          Except.ok [Report.failure m] ∧
        strContains m ("Expected " ++ toString ec ++ ", got " ++
          toString (items.length : Int) ++ ".") = true) ∧
    (x = y →
      ∃ m, ReplicaCountAsExpected x y desc = Except.ok [Report.success m] ∧
        strContains m ("Expected " ++ toString x ++ ", got " ++ toString y ++ ".") = true) ∧
    (x ≠ y →
      ∃ m, ReplicaCountAsExpected x y desc = Except.ok [Report.failure m] ∧
        strContains m ("Expected " ++ toString x ++ ", got " ++ toString y ++ ".") = true) := by
  refine ⟨?_, ?_, ?_, ?_⟩ <;> intro h
  · refine ⟨"The expected number of Deployments exist in the \x27" ++ ns ++
      "\x27 namespace.  Expected " ++ toString ec ++ ", got " ++
      toString (items.length : Int) ++ ".", ?_, ?_⟩
    · simp only [ExpectedDeploymentCount]
      rw [if_pos h.symm]
    · exact contains_expected_got _ _ _ _
        (by rw [show ("\x27 namespace.  Expected " : String) =
          "\x27 namespace.  " ++ "Expected " from rfl, ← String.append_assoc])
  · refine ⟨"An unexpected number of Deployments exist in the \x27" ++ ns ++
      "\x27 namespace.  Expected " ++ toString ec ++ ", got " ++
      toString (items.length : Int) ++ ".", ?_, ?_⟩
    · simp only [ExpectedDeploymentCount]
      rw [if_neg (Ne.symm h)]
    · exact contains_expected_got _ _ _ _
        (by rw [show ("\x27 namespace.  Expected " : String) =
          "\x27 namespace.  " ++ "Expected " from rfl, ← String.append_assoc])
  · refine ⟨"Jenkins Deployment has expected " ++ desc ++ ".  Expected " ++
      toString x ++ ", got " ++ toString y ++ ".", ?_, ?_⟩
    · simp only [ReplicaCountAsExpected]
      rw [if_pos h]
    · exact contains_expected_got _ _ _ _
        (by rw [show (".  Expected " : String) = ".  " ++ "Expected " from rfl,
          ← String.append_assoc])
  · refine ⟨"Jenkins Deployment has unexpected " ++ desc ++ ".  Expected " ++
      toString x ++ ", got " ++ toString y ++ ".", ?_, ?_⟩
    · simp only [ReplicaCountAsExpected]
      rw [if_neg h]
    · exact contains_expected_got _ _ _ _
        (by rw [show (".  Expected " : String) = ".  " ++ "Expected " from rfl,
          ← String.append_assoc])

/-- Witness for C6 at the spec's example: three deployments in namespace
"prod", expected 4, yielding a failure whose message contains
"Expected 4, got 3". -/
theorem count_and_replica_success_iff_and_message_verbatim_witness :
    ∃ m, ExpectedDeploymentCount (Except.ok ⟨[⟨"a"⟩, ⟨"b"⟩, ⟨"c"⟩]⟩) "prod" 4 =
        Except.ok [Report.failure m] ∧
      strContains m ("Expected " ++ toString (4 : Int) ++ ", got " ++
        toString (([⟨"a"⟩, ⟨"b"⟩, ⟨"c"⟩] : List Deployment).length : Int) ++ ".") = true :=
  (count_and_replica_success_iff_and_message_verbatim
    [⟨"a"⟩, ⟨"b"⟩, ⟨"c"⟩] "prod" "replicas" 4 0 0).2.1 (by decide)

/-- C7 counterexample: the namespace existence check's success message on a
fetched namespace with phase "Active" is "Cluster has a namespace named
jenkins.", which contains neither the expected phase nor the observed
phase ("Active" does not occur in it), so not every check function's
messages include the expected and actual values. -/
theorem namespace_check_message_omits_phase :
    NamespaceExists (Except.ok ⟨"Active"⟩) "jenkins" =
      Except.ok [Report.success "Cluster has a namespace named jenkins."] ∧
    strContains "Cluster has a namespace named jenkins." "Active" = false := by
  exact ⟨by decide, by decide⟩

/-- C7 (amended): every invocation that reaches a report of the six checks
that compare an explicit expected value with an observed value — the
deployment count, deployment existence, annotation equality, annotation
pattern, condition status and replica count checks — emits a message that
includes the property name/kind (the resource kind and namespace, the
annotation key, the condition type, the compared property's description)
and contains "Expected e, got a" with the expected and actual values
verbatim.  The existence checks are outside the claim: as the
counterexample shows, the namespace check's success message includes
neither the expected phase nor the observed phase. -/
theorem value_comparing_checks_message_contains_expected_and_actual
    (items : List Deployment) (d : Deployment) (annotations : List (String × String))
    (conditions : List DeploymentCondition)
    (ns name key val patt desc ct st : String) (ec x y : Int) :
    (∀ rs, ExpectedDeploymentCount (Except.ok ⟨items⟩) ns ec = Except.ok rs →
      ∀ r ∈ rs,
        strContains (reportMsg r)
          ("Deployments exist in the \x27" ++ ns ++ "\x27 namespace.") = true ∧
        strContains (reportMsg r) ("Expected " ++ toString ec ++ ", got " ++
          toString (items.length : Int) ++ ".") = true) ∧
    (∀ rs, DeploymentExists (Except.ok d) name ns = Except.ok rs →
      ∀ r ∈ rs,
        strContains (reportMsg r) "Jenkins Deployment" = true ∧
        strContains (reportMsg r) "the expected name" = true ∧
        strContains (reportMsg r) ("Expected " ++ name ++ ", got " ++
          d.name ++ ".") = true) ∧
    (∀ rs, AnnotationsEqual annotations key val = Except.ok rs →
      ∀ r ∈ rs,
        strContains (reportMsg r) ("Annotation " ++ key) = true ∧
        strContains (reportMsg r) "expected value" = true ∧
        strContains (reportMsg r) ("Expected " ++ val ++ ", got " ++
          mapIndex annotations key ++ ".") = true) ∧
    (∀ rs, AnnotationsMatchPattern annotations key patt = Except.ok rs →
      ∀ r ∈ rs,
        strContains (reportMsg r) ("Annotation " ++ key) = true ∧
        strContains (reportMsg r) "expected pattern" = true ∧
        strContains (reportMsg r) ("Expected " ++ patt ++ ", got " ++
          mapIndex annotations key ++ ".") = true) ∧
    (∀ c rest, conditions.filter (fun condition => condition.type == ct) = c :: rest →
      ∀ rs, ConditionStatusMet conditions ct st = Except.ok rs →
      ∀ r ∈ rs,
        strContains (reportMsg r) ("Deployment condition type " ++ ct) = true ∧
        strContains (reportMsg r) "expected status" = true ∧
        strContains (reportMsg r) ("Expected " ++ st ++ ", got " ++
          c.status ++ ".") = true) ∧
    (∀ rs, ReplicaCountAsExpected x y desc = Except.ok rs →
      ∀ r ∈ rs,
        strContains (reportMsg r) "Jenkins Deployment" = true ∧
        strContains (reportMsg r) desc = true ∧
        strContains (reportMsg r) ("Expected " ++ toString x ++ ", got " ++
          toString y ++ ".") = true) := by
  refine ⟨?_, ?_, ?_, ?_, ?_, ?_⟩
  · intro rs h r hr
    simp only [ExpectedDeploymentCount] at h
    split at h
    · rw [← Except.ok.inj h] at hr
      simp only [List.mem_singleton] at hr
      subst hr
      simp only [reportMsg]
      refine ⟨?_, ?_⟩
      · exact strContains_of_split _ "The expected number of " _
          ("  Expected " ++ toString ec ++ ", got " ++
            toString (items.length : Int) ++ ".")
          (by rw [show ("The expected number of Deployments exist in the \x27" : String) =
              "The expected number of " ++ "Deployments exist in the \x27" from rfl,
              show ("\x27 namespace.  Expected " : String) =
              "\x27 namespace." ++ "  Expected " from rfl]
              simp only [String.append_assoc])
      · exact contains_expected_got _ _ _ _
          (by rw [show ("\x27 namespace.  Expected " : String) =
            "\x27 namespace.  " ++ "Expected " from rfl, ← String.append_assoc])
    · rw [← Except.ok.inj h] at hr
      simp only [List.mem_singleton] at hr
      subst hr
      simp only [reportMsg]
      refine ⟨?_, ?_⟩
      · exact strContains_of_split _ "An unexpected number of " _
          ("  Expected " ++ toString ec ++ ", got " ++
            toString (items.length : Int) ++ ".")
          (by rw [show ("An unexpected number of Deployments exist in the \x27" : String) =
              "An unexpected number of " ++ "Deployments exist in the \x27" from rfl,
              show ("\x27 namespace.  Expected " : String) =
              "\x27 namespace." ++ "  Expected " from rfl]
              simp only [String.append_assoc])
      · exact contains_expected_got _ _ _ _
          (by rw [show ("\x27 namespace.  Expected " : String) =
            "\x27 namespace.  " ++ "Expected " from rfl, ← String.append_assoc])
  · intro rs h r hr
    simp only [DeploymentExists] at h
    split at h
    · rw [← Except.ok.inj h] at hr
      simp only [List.mem_singleton] at hr
      subst hr
      simp only [reportMsg]
      refine ⟨?_, ?_, ?_⟩
      · exact strContains_front _ _
          (" exists with the expected name.  Expected " ++ name ++ ", got " ++
            d.name ++ ".")
          (by rw [show ("Jenkins Deployment exists with the expected name.  Expected " : String) =
              "Jenkins Deployment" ++ " exists with the expected name.  Expected " from rfl]
              simp only [String.append_assoc])
      · exact strContains_of_split _ "Jenkins Deployment exists with " _
          (".  Expected " ++ name ++ ", got " ++ d.name ++ ".")
          (by rw [show ("Jenkins Deployment exists with the expected name.  Expected " : String) =
              "Jenkins Deployment exists with " ++
                ("the expected name" ++ ".  Expected ") from rfl]
              simp only [String.append_assoc])
      · exact contains_expected_got _
          "Jenkins Deployment exists with the expected name.  " _ _ rfl
    · rw [← Except.ok.inj h] at hr
      simp only [List.mem_singleton] at hr
      subst hr
      simp only [reportMsg]
      refine ⟨?_, ?_, ?_⟩
      · exact strContains_front _ _
          (" does not exist with the expected name.  Expected " ++ name ++ ", got " ++
            d.name ++ ".")
          (by rw [show ("Jenkins Deployment does not exist with the expected name.  Expected " : String) =
              "Jenkins Deployment" ++ " does not exist with the expected name.  Expected " from rfl]
              simp only [String.append_assoc])
      · exact strContains_of_split _ "Jenkins Deployment does not exist with " _
          (".  Expected " ++ name ++ ", got " ++ d.name ++ ".")
          (by rw [show ("Jenkins Deployment does not exist with the expected name.  Expected " : String) =
              "Jenkins Deployment does not exist with " ++
                ("the expected name" ++ ".  Expected ") from rfl]
              simp only [String.append_assoc])
      · exact contains_expected_got _
          "Jenkins Deployment does not exist with the expected name.  " _ _ rfl
  · intro rs h r hr
    simp only [AnnotationsEqual] at h
    split at h
    · rw [← Except.ok.inj h] at hr
      simp only [List.mem_singleton] at hr
      subst hr
      simp only [reportMsg]
      refine ⟨?_, ?_, ?_⟩
      · exact strContains_front _ _
          (" exists with its expected value.  Expected " ++ val ++ ", got " ++
            mapIndex annotations key ++ ".")
          (by simp only [String.append_assoc])
      · exact strContains_of_split _ ("Annotation " ++ key ++ " exists with its ") _
          (".  Expected " ++ val ++ ", got " ++ mapIndex annotations key ++ ".")
          (by rw [show (" exists with its expected value.  Expected " : String) =
              " exists with its " ++ ("expected value" ++ ".  Expected ") from rfl]
              simp only [String.append_assoc])
      · exact contains_expected_got _ _ _ _
          (by rw [show (" exists with its expected value.  Expected " : String) =
            " exists with its expected value.  " ++ "Expected " from rfl,
            ← String.append_assoc])
    · rw [← Except.ok.inj h] at hr
      simp only [List.mem_singleton] at hr
      subst hr
      simp only [reportMsg]
      refine ⟨?_, ?_, ?_⟩
      · exact strContains_front _ _
          (" does not exist with its expected value.  Expected " ++ val ++ ", got " ++
            mapIndex annotations key ++ ".")
          (by simp only [String.append_assoc])
      · exact strContains_of_split _ ("Annotation " ++ key ++ " does not exist with its ") _
          (".  Expected " ++ val ++ ", got " ++ mapIndex annotations key ++ ".")
          (by rw [show (" does not exist with its expected value.  Expected " : String) =
              " does not exist with its " ++ ("expected value" ++ ".  Expected ") from rfl]
              simp only [String.append_assoc])
      · exact contains_expected_got _ _ _ _
          (by rw [show (" does not exist with its expected value.  Expected " : String) =
            " does not exist with its expected value.  " ++ "Expected " from rfl,
            ← String.append_assoc])
  · intro rs h r hr
    simp only [AnnotationsMatchPattern] at h
    split at h
    · exact Except.noConfusion h
    · split at h
      · rw [← Except.ok.inj h] at hr
        simp only [List.mem_singleton] at hr
        subst hr
        simp only [reportMsg]
        refine ⟨?_, ?_, ?_⟩
        · exact strContains_front _ _
            (" exists and matches its expected pattern.  Expected " ++ patt ++ ", got " ++
              mapIndex annotations key ++ ".")
            (by simp only [String.append_assoc])
        · exact strContains_of_split _
            ("Annotation " ++ key ++ " exists and matches its ") _
            (".  Expected " ++ patt ++ ", got " ++ mapIndex annotations key ++ ".")
            (by rw [show (" exists and matches its expected pattern.  Expected " : String) =
                " exists and matches its " ++ ("expected pattern" ++ ".  Expected ") from rfl]
                simp only [String.append_assoc])
        · exact contains_expected_got _ _ _ _
            (by rw [show (" exists and matches its expected pattern.  Expected " : String) =
              " exists and matches its expected pattern.  " ++ "Expected " from rfl,
              ← String.append_assoc])
      · rw [← Except.ok.inj h] at hr
        simp only [List.mem_singleton] at hr
        subst hr
        simp only [reportMsg]
        refine ⟨?_, ?_, ?_⟩
        · exact strContains_front _ _
            (" does not exist and match its expected pattern.  Expected " ++ patt ++ ", got " ++
              mapIndex annotations key ++ ".")
            (by simp only [String.append_assoc])
        · exact strContains_of_split _
            ("Annotation " ++ key ++ " does not exist and match its ") _
            (".  Expected " ++ patt ++ ", got " ++ mapIndex annotations key ++ ".")
            (by rw [show (" does not exist and match its expected pattern.  Expected " : String) =
                " does not exist and match its " ++
                  ("expected pattern" ++ ".  Expected ") from rfl]
                simp only [String.append_assoc])
        · exact contains_expected_got _ _ _ _
            (by rw [show (" does not exist and match its expected pattern.  Expected " : String) =
              " does not exist and match its expected pattern.  " ++ "Expected " from rfl,
              ← String.append_assoc])
  · intro c rest hfilter rs h r hr
    simp only [ConditionStatusMet, hfilter] at h
    split at h
    · rw [← Except.ok.inj h] at hr
      simp only [List.mem_singleton] at hr
      subst hr
      simp only [reportMsg]
      refine ⟨?_, ?_, ?_⟩
      · exact strContains_front _ _
          (" has its expected status.  Expected " ++ st ++ ", got " ++ c.status ++ ".")
          (by simp only [String.append_assoc])
      · exact strContains_of_split _
          ("Deployment condition type " ++ ct ++ " has its ") _
          (".  Expected " ++ st ++ ", got " ++ c.status ++ ".")
          (by rw [show (" has its expected status.  Expected " : String) =
              " has its " ++ ("expected status" ++ ".  Expected ") from rfl]
              simp only [String.append_assoc])
      · exact contains_expected_got _ _ _ _
          (by rw [show (" has its expected status.  Expected " : String) =
            " has its expected status.  " ++ "Expected " from rfl,
            ← String.append_assoc])
    · rw [← Except.ok.inj h] at hr
      simp only [List.mem_singleton] at hr
      subst hr
      simp only [reportMsg]
      refine ⟨?_, ?_, ?_⟩
      · exact strContains_front _ _
          (" does not have its expected status.  Expected " ++ st ++ ", got " ++
            c.status ++ ".")
          (by simp only [String.append_assoc])
      · exact strContains_of_split _
          ("Deployment condition type " ++ ct ++ " does not have its ") _
          (".  Expected " ++ st ++ ", got " ++ c.status ++ ".")
          (by rw [show (" does not have its expected status.  Expected " : String) =
              " does not have its " ++ ("expected status" ++ ".  Expected ") from rfl]
              simp only [String.append_assoc])
      · exact contains_expected_got _ _ _ _
          (by rw [show (" does not have its expected status.  Expected " : String) =
            " does not have its expected status.  " ++ "Expected " from rfl,
            ← String.append_assoc])
  · intro rs h r hr
    simp only [ReplicaCountAsExpected] at h
    split at h
    · rw [← Except.ok.inj h] at hr
      simp only [List.mem_singleton] at hr
      subst hr
      simp only [reportMsg]
      refine ⟨?_, ?_, ?_⟩
      · exact strContains_front _ _
          (" has expected " ++ desc ++ ".  Expected " ++ toString x ++ ", got " ++
            toString y ++ ".")
          (by rw [show ("Jenkins Deployment has expected " : String) =
              "Jenkins Deployment" ++ " has expected " from rfl]
              simp only [String.append_assoc])
      · exact strContains_of_split _ "Jenkins Deployment has expected " _
          (".  Expected " ++ toString x ++ ", got " ++ toString y ++ ".")
          (by simp only [String.append_assoc])
      · exact contains_expected_got _ _ _ _
          (by rw [show (".  Expected " : String) = ".  " ++ "Expected " from rfl,
            ← String.append_assoc])
    · rw [← Except.ok.inj h] at hr
      simp only [List.mem_singleton] at hr
      subst hr
      simp only [reportMsg]
      refine ⟨?_, ?_, ?_⟩
      · exact strContains_front _ _
          (" has unexpected " ++ desc ++ ".  Expected " ++ toString x ++ ", got " ++
            toString y ++ ".")
          (by rw [show ("Jenkins Deployment has unexpected " : String) =
              "Jenkins Deployment" ++ " has unexpected " from rfl]
              simp only [String.append_assoc])
      · exact strContains_of_split _ "Jenkins Deployment has unexpected " _
          (".  Expected " ++ toString x ++ ", got " ++ toString y ++ ".")
          (by simp only [String.append_assoc])
      · exact contains_expected_got _ _ _ _
          (by rw [show (".  Expected " : String) = ".  " ++ "Expected " from rfl,
            ← String.append_assoc])

/-- Witness for the amended C7 at a concrete invocation of the replica
count check: the message names the kind, the compared property's
description, and both values. -/
theorem value_comparing_checks_message_contains_expected_and_actual_witness :
    strContains (reportMsg (Report.failure
        "Jenkins Deployment has unexpected replicas.  Expected 4, got 3."))
      "Jenkins Deployment" = true ∧
    strContains (reportMsg (Report.failure
        "Jenkins Deployment has unexpected replicas.  Expected 4, got 3."))
      "replicas" = true ∧
    strContains (reportMsg (Report.failure
        "Jenkins Deployment has unexpected replicas.  Expected 4, got 3."))
      ("Expected " ++ toString (4 : Int) ++ ", got " ++ toString (3 : Int) ++ ".") = true :=
  (value_comparing_checks_message_contains_expected_and_actual
      [] ⟨""⟩ [] [] "" "" "" "" "" "replicas" "" "" 0 4 3).2.2.2.2.2
    [Report.failure "Jenkins Deployment has unexpected replicas.  Expected 4, got 3."]
    (by decide)
    (Report.failure "Jenkins Deployment has unexpected replicas.  Expected 4, got 3.")
    (by simp)

end kubernetes_test_functions
